import Mathlib

/-!
Verification of the Newsor notification-delivery subsystem.

The definitions below are a shallow embedding of the Python source:
  * `api/models.py`          — the `Notification` model and `mark_as_read`;
  * `api/schema.py`          — the `MarkNotificationAsRead` mutation;
  * `api/notification_service.py` — `NotificationService` (row creation,
    serialization, group fan-out topic names, bulk mark-as-read);
  * `api/consumers.py`       — the legacy `GraphQLSubscriptionConsumer`
    (sub-protocol negotiation, close-on-bad-account auth policy,
    subscription-gated `next` frames, `notifications_<id>` topics);
  * `api/consumers_enhanced.py` — the enhanced consumer that `newsor/asgi.py`
    actually routes (always accepts with `graphql-ws`, degrades every auth
    failure to anonymous, `user_<id>` topics, unconditional `data` frames,
    discard-then-add topic switch in `handle_connection_init`).

Stateful Python (Django ORM rows, channel-layer groups) is modelled by
explicit state passing: the notification table is a `List Notification`,
the channel layer is an optional list of live connections each carrying its
set of joined group names, and the registry states observable during a
topic switch are listed explicitly as a trace.
-/

/-- One row of the `api.models.Notification` table.  Foreign keys are plain
identifiers, timestamps are naturals. -/
structure Notification where
  id : Nat
  recipient_id : Nat
  sender_id : Option Nat
  notification_type : String
  title : String
  message : String
  article_id : Option Nat
  is_read : Bool
  read_at : Option Nat
  created_at : Nat
deriving DecidableEq

/-- `Notification.mark_as_read` from `api/models.py`: only an unread row is
mutated; it gets `is_read = True` and `read_at = timezone.now()`. -/
def Notification.mark_as_read (n : Notification) (now : Nat) : Notification :=
  if n.is_read then n else { n with is_read := true, read_at := some now }

/-- Result object of the `MarkNotificationAsRead` GraphQL mutation:
either `success=True` with the row, or `success=False` with `errors`. -/
inductive MutationResult where
  | ok (n : Notification)
  | err (errors : List String)
deriving DecidableEq

/-- `MarkNotificationAsRead.mutate` from `api/schema.py`: requires an
authenticated requester, looks the row up by `id=notificationId` and
`recipient=user`, marks it read on success, and answers
`"Notification not found"` when the lookup raises `DoesNotExist`. -/
def markNotificationAsRead (store : List Notification) (requester : Option Nat)
    (notificationId : Nat) (now : Nat) : List Notification × MutationResult :=
  match requester with
  | none => (store, MutationResult.err ["Authentication required"])
  | some uid =>
    match store.find? (fun m => m.id == notificationId && m.recipient_id == uid) with
    | some n =>
      let n2 := n.mark_as_read now
      (store.map (fun m => if m.id == n.id then n2 else m), MutationResult.ok n2)
    | none => (store, MutationResult.err ["Notification not found"])

/-- `NotificationService.mark_notifications_as_read` from
`api/notification_service.py`: updates every unread row of the recipient
(restricted to `notification_ids` when that argument is a non-empty list —
Python treats an empty list as falsy and skips the filter) with
`is_read=True, read_at=now`, returning the number of updated rows. -/
def mark_notifications_as_read (store : List Notification) (uid : Nat)
    (ids : Option (List Nat)) (now : Nat) : List Notification × Nat :=
  let sel : Notification → Bool := fun n =>
    n.recipient_id == uid && n.is_read == false &&
      (match ids with
       | none => true
       | some [] => true
       | some l => l.contains n.id)
  (store.map (fun n => if sel n then { n with is_read := true, read_at := some now } else n),
   (store.filter sel).length)

/-- The serialized payload built in
`NotificationService._send_realtime_notification`: `id` (stringified),
`message`, `notificationType`, `createdAt`, and the article slug when the
row references an article. -/
structure NotifData where
  id : String
  message : String
  notificationType : String
  createdAt : Nat
  articleSlug : Option String
deriving DecidableEq

/-- Serialization step of `_send_realtime_notification`; `slug` is the
referenced article's slug, used only when the row has an article. -/
def serialize_notification (n : Notification) (slug : Option String) : NotifData :=
  { id := toString n.id
    message := n.message
    notificationType := n.notification_type
    createdAt := n.created_at
    articleSlug := match n.article_id with | some _ => slug | none => none }

/-- Group name the publisher sends to
(`_send_realtime_notification`): `f'notifications_{user_id}'`. -/
def publisher_topic (user_id : Nat) : String := "notifications_" ++ toString user_id

/-- Resolved identity of a connection: Django's `AnonymousUser` or a
concrete user id. -/
inductive Identity where
  | anonymous
  | user (id : Nat)
deriving DecidableEq

/-- Abstract outcome of `jwt.decode` on the presented credential: a decoded
payload (whose `user_id` claim may be absent), an `ExpiredSignatureError`,
or any other `InvalidTokenError` (malformed, signature mismatch). -/
inductive DecodeResult where
  | ok (user_id : Option Nat)
  | expired
  | invalid
deriving DecidableEq

/-- One row of the Django user table, as far as the consumers read it. -/
structure UserRec where
  id : Nat
  is_active : Bool
deriving DecidableEq

/-- `User.objects.get(id=uid)`, with `DoesNotExist` as `none`. -/
def lookup_user (db : List UserRec) (uid : Nat) : Option UserRec :=
  db.find? (fun u => u.id == uid)

/-- `GraphQLSubscriptionConsumer.authenticate_token` from
`api/consumers_enhanced.py`: decode the JWT; on success require a truthy
`user_id` claim (so the claim `0` or a missing claim fails), an existing
account and `is_active`; every failure path returns `None`. -/
def authenticate_token (db : List UserRec) (d : DecodeResult) : Option Nat :=
  match d with
  | DecodeResult.ok (some uid) =>
    if uid == 0 then none
    else
      match lookup_user db uid with
      | some u => if u.is_active then some u.id else none
      | none => none
  | DecodeResult.ok none => none
  | DecodeResult.expired => none
  | DecodeResult.invalid => none

/-- `get_user_from_token` from `api/consumers_enhanced.py`, after the
header/query-string/path extraction has produced at most one credential:
a missing credential or any authentication failure yields `AnonymousUser`. -/
def get_user_from_token (db : List UserRec) (token : Option DecodeResult) : Identity :=
  match token with
  | none => Identity.anonymous
  | some d =>
    match authenticate_token db d with
    | some uid => Identity.user uid
    | none => Identity.anonymous

/-- What `connect` does with a credential: close the socket or proceed with
a resolved identity. -/
inductive ConnectOutcome where
  | closed
  | proceeded (ident : Identity)
deriving DecidableEq

/-- Authentication part of `connect` in `api/consumers_enhanced.py`
(the consumer routed by `newsor/asgi.py`): it always proceeds, with the
identity produced by `get_user_from_token`. -/
def enhanced_connect_outcome (db : List UserRec) (token : Option DecodeResult) :
    ConnectOutcome :=
  ConnectOutcome.proceeded (get_user_from_token db token)

/-- Authentication part of `connect` in the legacy `api/consumers.py`:
no token proceeds as anonymous; a token failing `jwt.decode`
(expired or otherwise invalid) proceeds as anonymous; a token that decodes
but whose `user_id` resolves to no account, or to an inactive account,
closes the connection (`await self.close()`). -/
def legacy_connect_auth (db : List UserRec) (token : Option DecodeResult) :
    ConnectOutcome :=
  match token with
  | none => ConnectOutcome.proceeded Identity.anonymous
  | some (DecodeResult.ok uid?) =>
    let u :=
      match uid? with
      | some uid => lookup_user db uid
      | none => none
    match u with
    | some user =>
      if user.is_active then ConnectOutcome.proceeded (Identity.user user.id)
      else ConnectOutcome.closed
    | none => ConnectOutcome.closed
  | some DecodeResult.expired => ConnectOutcome.proceeded Identity.anonymous
  | some DecodeResult.invalid => ConnectOutcome.proceeded Identity.anonymous

/-- Group name the legacy `api/consumers.py` joins after authentication:
`f'notifications_{self.user.id}'` when the user has a truthy `id`,
otherwise `'notifications_anonymous'`. -/
def legacy_topic : Identity → String
  | Identity.user 0 => "notifications_anonymous"
  | Identity.user uid => "notifications_" ++ toString uid
  | Identity.anonymous => "notifications_anonymous"

/-- Per-user group name joined by `connect` in `api/consumers_enhanced.py`:
`f'user_{self.user.id}'`. -/
def enhanced_user_topic (uid : Nat) : String := "user_" ++ toString uid

/-- Group joined by unauthenticated connections in
`api/consumers_enhanced.py`. -/
def enhanced_anonymous_topic : String := "anonymous_users"

/-- Groups joined by `connect` in `api/consumers_enhanced.py`: the user
group when authenticated, else the anonymous group. -/
def enhanced_connect_groups : Identity → List String
  | Identity.user uid => [enhanced_user_topic uid]
  | Identity.anonymous => [enhanced_anonymous_topic]

/-- Outcome of sub-protocol negotiation at connect time. -/
inductive NegotiationResult where
  | accepted (subprotocol : String)
  | closedConn
deriving DecidableEq

/-- Sub-protocol negotiation in the legacy `api/consumers.py` `connect`:
prefer `graphql-transport-ws`, then `graphql-ws`, else close. -/
def legacy_negotiate (offers : List String) : NegotiationResult :=
  if offers.contains "graphql-transport-ws" then
    NegotiationResult.accepted "graphql-transport-ws"
  else if offers.contains "graphql-ws" then
    NegotiationResult.accepted "graphql-ws"
  else NegotiationResult.closedConn

/-- Sub-protocol handling in `api/consumers_enhanced.py` `connect`:
`await self.accept(subprotocol='graphql-ws')` unconditionally, the offered
list is never consulted. -/
def enhanced_negotiate (_offers : List String) : NegotiationResult :=
  NegotiationResult.accepted "graphql-ws"

/-- One outbound protocol frame: its `type`, optional `id`, the key used
under `payload.data`, and the notification payload carried there. -/
structure Frame where
  type : String
  id : Option String
  payloadKey : String
  payloadData : Option NotifData
deriving DecidableEq

/-- Python truthiness of the `subscription_id` attribute as tested by
`if hasattr(self, 'subscription_id') and self.subscription_id:`. -/
def truthy : Option String → Bool
  | none => false
  | some s => !s.isEmpty

/-- `notification_message` in the legacy `api/consumers.py`: when the
connection holds a truthy `subscription_id` it writes exactly one frame of
type `next` with that id and the payload under
`payload.data.notificationAdded`; otherwise the event is dropped.  The
frame type is `next` whatever sub-protocol was negotiated. -/
def legacy_notification_frames (subscription_id : Option String) (nd : NotifData) :
    List Frame :=
  match subscription_id with
  | some sid =>
    if sid.isEmpty then []
    else [{ type := "next", id := some sid, payloadKey := "notificationAdded",
            payloadData := some nd }]
  | none => []

/-- `notification_message` in `api/consumers_enhanced.py`: every group
event is written as one frame of type `data`, with no `id` field, the
payload living under `payload.data.notification`.  There is no
`subscription_id` state and no gating. -/
def enhanced_notification_frames (nd : NotifData) : List Frame :=
  [{ type := "data", id := none, payloadKey := "notification", payloadData := some nd }]

/-- A live connection as the channel layer sees it: a channel handle and
the set of group names it has joined. -/
structure ChannelConn where
  channel : Nat
  groups : List String
deriving DecidableEq

/-- `channel_layer.group_send` followed by each member's
`notification_message` handler of the routed enhanced consumer: every
connection that joined `topic` emits its frames, everyone else nothing. -/
def group_send_enhanced (conns : List ChannelConn) (topic : String) (nd : NotifData) :
    List (Nat × Frame) :=
  (conns.filter (fun c => c.groups.contains topic)).flatMap
    (fun c => (enhanced_notification_frames nd).map (fun f => (c.channel, f)))

/-- The row built by `NotificationService.notify_writer_of_publication`:
recipient is the article's author, no sender, type `article_published`,
formatted title and message, `is_read`/`read_at` left at their defaults. -/
def created_publication_row (author_id article_id fresh_id now : Nat)
    (article_title : String) : Notification :=
  { id := fresh_id
    recipient_id := author_id
    sender_id := none
    notification_type := "article_published"
    title := "Article Published: " ++ article_title
    message := "Your article \"" ++ article_title ++ "\" has been published and is now live!"
    article_id := some article_id
    is_read := false
    read_at := none
    created_at := now }

/-- `NotificationService.notify_writer_of_publication` together with
`_send_realtime_notification`: first `Notification.objects.create(...)`
appends the row to the store, then — only if `get_channel_layer()` returns
a layer — the serialized payload is `group_send`-ed to
`notifications_<author_id>`.  The broker argument is `none` when no channel
layer is configured. -/
def notify_writer_of_publication (store : List Notification)
    (broker : Option (List ChannelConn)) (author_id article_id fresh_id now : Nat)
    (article_title article_slug : String) : List Notification × List (Nat × Frame) :=
  let n := created_publication_row author_id article_id fresh_id now article_title
  let frames :=
    match broker with
    | none => []
    | some conns =>
      group_send_enhanced conns (publisher_topic author_id)
        (serialize_notification n (some article_slug))
  (store ++ [n], frames)

/-- Registry-membership states observable during the topic switch of
`handle_connection_init` in `api/consumers_enhanced.py`: the handler
iterates `group_discard` over every current group (after discarding the
first `k` groups the connection is a member of `groups.drop k`), and only
then `group_add`s the new user group.  The trace lists the membership set
after each channel-layer call. -/
def handle_connection_init_trace (groups : List String) (uid : Nat) :
    List (List String) :=
  (List.range (groups.length + 1)).map (fun k => groups.drop k)
    ++ [[enhanced_user_topic uid]]

/-- Spec-side reading of the notification read-state invariant:
`read_at` is set exactly when `is_read` is true. -/
def readInv (n : Notification) : Prop := n.read_at.isSome = n.is_read

/-- A concrete unread notification row owned by user 7, used by witnesses. -/
def sampleRow : Notification :=
  { id := 1, recipient_id := 7, sender_id := none, notification_type := "system",
    title := "t", message := "m", article_id := none, is_read := false,
    read_at := none, created_at := 0 }

/-- A concrete notification row owned by user 8 (not user 7), used by
witnesses for the wrong-recipient scenarios. -/
def sampleRowOther : Notification :=
  { id := 1, recipient_id := 8, sender_id := none, notification_type := "system",
    title := "t", message := "m", article_id := none, is_read := false,
    read_at := none, created_at := 0 }

theorem mark_as_read_id (n : Notification) (t : Nat) : (n.mark_as_read t).id = n.id := by
  unfold Notification.mark_as_read
  split <;> rfl

theorem mark_as_read_recipient (n : Notification) (t : Nat) :
    (n.mark_as_read t).recipient_id = n.recipient_id := by
  unfold Notification.mark_as_read
  split <;> rfl

theorem mark_as_read_is_read (n : Notification) (t : Nat) :
    (n.mark_as_read t).is_read = true := by
  unfold Notification.mark_as_read
  split
  · assumption
  · rfl

theorem mark_as_read_of_read (n : Notification) (t : Nat) (h : n.is_read = true) :
    n.mark_as_read t = n := by
  unfold Notification.mark_as_read
  simp [h]

/-- Claim C1 (code bug): the publisher (`_send_realtime_notification`) fans
out to topic `notifications_<id>`, but the consumer routed by
`newsor/asgi.py` (`consumers_enhanced`) joins topic `user_<id>` — only the
unrouted legacy `consumers.py` derives the publisher's topic name.
Publishing an `article_published` notification for user 7 while a live
connection of user 7 is attached therefore delivers zero frames, where the
claim requires exactly one frame per subscribed member of user 7's topic. -/
theorem publish_fanout_topic_mismatch :
    publisher_topic 7 ≠ enhanced_user_topic 7
    ∧ enhanced_connect_groups (Identity.user 7) = [enhanced_user_topic 7]
    ∧ legacy_topic (Identity.user 7) = publisher_topic 7
    ∧ (notify_writer_of_publication []
        (some [{ channel := 1, groups := enhanced_connect_groups (Identity.user 7) }])
        7 1 1 0 "X" "x").2 = [] := by
  decide

/-- Claim C2 counterexample: in the legacy `api/consumers.py` `connect`,
a credential that decodes but belongs to an inactive account does not
proceed as Anonymous — the handler closes the connection. -/
theorem legacy_auth_inactive_account_closes :
    legacy_connect_auth [{ id := 9, is_active := false }]
        (some (DecodeResult.ok (some 9))) = ConnectOutcome.closed
    ∧ legacy_connect_auth [{ id := 9, is_active := false }]
        (some (DecodeResult.ok (some 9)))
        ≠ ConnectOutcome.proceeded Identity.anonymous := by
  decide

/-- Claim C3 counterexample: the consumer routed by `newsor/asgi.py`
accepts a client that offers no sub-protocol at all (with the hard-coded
variant `graphql-ws`) instead of closing the connection as the claim
requires. -/
theorem enhanced_negotiate_empty_offer_accepts :
    enhanced_negotiate [] = NegotiationResult.accepted "graphql-ws"
    ∧ enhanced_negotiate [] ≠ NegotiationResult.closedConn := by
  decide

/-- Claim C4 counterexample: the routed enhanced consumer never records a
`subscription_id`, yet its `notification_message` handler still writes a
frame for every broker event — the event is not dropped when no
subscription is active, contrary to the claim. -/
theorem enhanced_event_not_dropped_without_subscription :
    enhanced_notification_frames
        { id := "1", message := "m", notificationType := "system",
          createdAt := 0, articleSlug := none } ≠ [] := by
  decide

/-- Claim C5 counterexample: during `handle_connection_init`'s topic
switch the handler discards every current group before adding the new user
group, so the trace of registry states for a connection starting in the
anonymous group contains the empty membership set — an observable instant
with zero topics, which the claim forbids. -/
theorem reauth_switch_zero_topic_window :
    [] ∈ handle_connection_init_trace [enhanced_anonymous_topic] 5 := by
  decide

/-- Claim C2 (amended): in the routed enhanced consumer every verification
failure — missing credential, malformed or expired token, missing user-id
claim, account not found, account inactive — proceeds with identity
Anonymous and never closes the connection; in the legacy `api/consumers.py`
`connect`, a missing, malformed or expired token also proceeds as
Anonymous, but a token that decodes successfully and resolves to a missing
or inactive account closes the connection. -/
theorem auth_failure_downgrades_enhanced_closes_legacy
    (db : List UserRec) (t : Option DecodeResult) (d : DecodeResult)
    (uid : Nat) (u : UserRec) :
    enhanced_connect_outcome db t ≠ ConnectOutcome.closed
    ∧ (authenticate_token db d = none →
        get_user_from_token db (some d) = Identity.anonymous)
    ∧ get_user_from_token db none = Identity.anonymous
    ∧ authenticate_token db DecodeResult.expired = none
    ∧ authenticate_token db DecodeResult.invalid = none
    ∧ legacy_connect_auth db none = ConnectOutcome.proceeded Identity.anonymous
    ∧ legacy_connect_auth db (some DecodeResult.expired)
        = ConnectOutcome.proceeded Identity.anonymous
    ∧ legacy_connect_auth db (some DecodeResult.invalid)
        = ConnectOutcome.proceeded Identity.anonymous
    ∧ (lookup_user db uid = none →
        legacy_connect_auth db (some (DecodeResult.ok (some uid)))
          = ConnectOutcome.closed)
    ∧ (lookup_user db uid = some u → u.is_active = false →
        legacy_connect_auth db (some (DecodeResult.ok (some uid)))
          = ConnectOutcome.closed) := by
  refine ⟨?_, ?_, rfl, rfl, rfl, rfl, rfl, rfl, ?_, ?_⟩
  · simp [enhanced_connect_outcome]
  · intro h
    simp [get_user_from_token, h]
  · intro h
    simp [legacy_connect_auth, h]
  · intro h hact
    simp [legacy_connect_auth, h, hact]

/-- Witness for claim C2's amended theorem at concrete inputs: an empty
account table, a token decoding to user id 42. -/
theorem auth_failure_downgrades_witness :
    legacy_connect_auth [] (some (DecodeResult.ok (some 42))) = ConnectOutcome.closed
    ∧ enhanced_connect_outcome [] (some (DecodeResult.ok (some 42)))
        ≠ ConnectOutcome.closed
    ∧ get_user_from_token [] (some (DecodeResult.ok (some 42))) = Identity.anonymous := by
  have h := auth_failure_downgrades_enhanced_closes_legacy []
      (some (DecodeResult.ok (some 42))) (DecodeResult.ok (some 42)) 42
      { id := 42, is_active := false }
  exact ⟨h.2.2.2.2.2.2.2.2.1 (by decide), h.1, h.2.1 (by decide)⟩

/-- Claim C3 (amended): only the legacy `api/consumers.py` `connect`
performs the claimed negotiation — `graphql-transport-ws` preferred over
`graphql-ws`, close when neither is offered; the consumer actually routed
by `newsor/asgi.py` ignores the offered list and accepts every connection
with the hard-coded variant `graphql-ws`, closing nothing. -/
theorem subprotocol_selection_legacy_only (offers : List String) :
    (offers.contains "graphql-transport-ws" = true →
      legacy_negotiate offers = NegotiationResult.accepted "graphql-transport-ws")
    ∧ (offers.contains "graphql-transport-ws" = false →
        offers.contains "graphql-ws" = true →
        legacy_negotiate offers = NegotiationResult.accepted "graphql-ws")
    ∧ (offers.contains "graphql-transport-ws" = false →
        offers.contains "graphql-ws" = false →
        legacy_negotiate offers = NegotiationResult.closedConn)
    ∧ enhanced_negotiate offers = NegotiationResult.accepted "graphql-ws" := by
  refine ⟨?_, ?_, ?_, rfl⟩
  · intro h
    have h' : "graphql-transport-ws" ∈ offers := by simpa using h
    simp [legacy_negotiate, h']
  · intro h1 h2
    have h1' : "graphql-transport-ws" ∉ offers := by simpa using h1
    have h2' : "graphql-ws" ∈ offers := by simpa using h2
    simp [legacy_negotiate, h1', h2']
  · intro h1 h2
    have h1' : "graphql-transport-ws" ∉ offers := by simpa using h1
    have h2' : "graphql-ws" ∉ offers := by simpa using h2
    simp [legacy_negotiate, h1', h2']

/-- Witness for claim C3's amended theorem at concrete offered lists. -/
theorem subprotocol_selection_witness :
    legacy_negotiate ["graphql-transport-ws"]
        = NegotiationResult.accepted "graphql-transport-ws"
    ∧ legacy_negotiate ["graphql-ws"] = NegotiationResult.accepted "graphql-ws"
    ∧ legacy_negotiate ["other"] = NegotiationResult.closedConn
    ∧ enhanced_negotiate ["graphql-transport-ws"]
        = NegotiationResult.accepted "graphql-ws" := by
  have h1 := subprotocol_selection_legacy_only ["graphql-transport-ws"]
  have h2 := subprotocol_selection_legacy_only ["graphql-ws"]
  have h3 := subprotocol_selection_legacy_only ["other"]
  exact ⟨h1.1 (by decide), h2.2.1 (by decide) (by decide),
    h3.2.2.1 (by decide) (by decide), h1.2.2.2⟩

/-- Claim C4 (amended): the routed enhanced consumer writes, for every
broker event, exactly one frame of type `data` with no `id` and the
payload under `payload.data.notification`, regardless of any subscription
state; the legacy `api/consumers.py` handler writes exactly one frame of
type `next` — whatever variant was negotiated — with the subscription id
and `payload.data.notificationAdded` when `subscription_id` is truthy, and
drops the event when `subscription_id` is unset or empty. -/
theorem event_delivery_frame_shapes (nd : NotifData) (s : String) :
    enhanced_notification_frames nd
      = [{ type := "data", id := none, payloadKey := "notification",
           payloadData := some nd }]
    ∧ (s.isEmpty = false →
        legacy_notification_frames (some s) nd
          = [{ type := "next", id := some s, payloadKey := "notificationAdded",
               payloadData := some nd }])
    ∧ (s.isEmpty = true → legacy_notification_frames (some s) nd = [])
    ∧ legacy_notification_frames none nd = [] := by
  refine ⟨rfl, ?_, ?_, rfl⟩
  · intro h
    simp [legacy_notification_frames, h]
  · intro h
    simp [legacy_notification_frames, h]

/-- Witness for claim C4's amended theorem at a concrete payload and
subscription ids. -/
theorem event_delivery_frame_shapes_witness :
    legacy_notification_frames (some "sub1")
        { id := "1", message := "m", notificationType := "system",
          createdAt := 0, articleSlug := none }
      = [{ type := "next", id := some "sub1", payloadKey := "notificationAdded",
           payloadData := some
             ({ id := "1", message := "m", notificationType := "system",
                createdAt := 0, articleSlug := none } : NotifData) }]
    ∧ legacy_notification_frames (some "")
        { id := "1", message := "m", notificationType := "system",
          createdAt := 0, articleSlug := none } = [] := by
  have h1 := event_delivery_frame_shapes
      { id := "1", message := "m", notificationType := "system",
        createdAt := 0, articleSlug := none } "sub1"
  have h2 := event_delivery_frame_shapes
      { id := "1", message := "m", notificationType := "system",
        createdAt := 0, articleSlug := none } ""
  exact ⟨h1.2.1 (by decide), h2.2.2.1 (by decide)⟩

/-- Claim C5 (amended): during the re-authentication topic switch of
`handle_connection_init`, every observable registry state is either a
sub-list of the starting groups or exactly the singleton new user topic —
so a connection starting with at most one user topic never holds two user
topics — but the switch does pass through an observable state with zero
topics (all groups discarded before the new one is added); the final state
is exactly the singleton new user topic. -/
theorem reauth_switch_membership_states (groups : List String) (uid : Nat) :
    [] ∈ handle_connection_init_trace groups uid
    ∧ (∀ s ∈ handle_connection_init_trace groups uid,
        s.Sublist groups ∨ s = [enhanced_user_topic uid])
    ∧ (handle_connection_init_trace groups uid).getLast?
        = some [enhanced_user_topic uid] := by
  refine ⟨?_, ?_, ?_⟩
  · unfold handle_connection_init_trace
    apply List.mem_append_left
    exact List.mem_map.mpr
      ⟨groups.length, List.mem_range.mpr (Nat.lt_succ_self _), List.drop_length groups⟩
  · intro s hs
    unfold handle_connection_init_trace at hs
    rcases List.mem_append.mp hs with h | h
    · rcases List.mem_map.mp h with ⟨k, _, rfl⟩
      exact Or.inl (List.drop_sublist k groups)
    · right
      simpa using h
  · unfold handle_connection_init_trace
    exact List.getLast?_concat _

/-- Witness for claim C5's amended theorem: a connection in the anonymous
group re-authenticating as user 7. -/
theorem reauth_switch_membership_states_witness :
    [] ∈ handle_connection_init_trace [enhanced_anonymous_topic] 7
    ∧ (([] : List String).Sublist [enhanced_anonymous_topic]
        ∨ ([] : List String) = [enhanced_user_topic 7])
    ∧ (handle_connection_init_trace [enhanced_anonymous_topic] 7).getLast?
        = some [enhanced_user_topic 7] := by
  have h := reauth_switch_membership_states [enhanced_anonymous_topic] 7
  exact ⟨h.1, h.2.1 [] h.1, h.2.2⟩

theorem group_send_enhanced_eq_nil (conns : List ChannelConn) (topic : String)
    (nd : NotifData) (h : ∀ c ∈ conns, c.groups.contains topic = false) :
    group_send_enhanced conns topic nd = [] := by
  unfold group_send_enhanced
  have hfil : conns.filter (fun c => c.groups.contains topic) = [] :=
    List.filter_eq_nil_iff.mpr (fun c hc => by simpa using h c hc)
  rw [hfil]
  rfl

/-- Claim C6: `notify_writer_of_publication` appends the Notification row
(with `is_read=false`, `read_at` null) to the store whatever the broker
state is — the persistence half never depends on the fan-out half; with no
channel layer configured, or with a channel layer but no live member of
the publisher's topic, zero frames are sent and the call still returns the
enlarged store. -/
theorem publish_persists_row_before_best_effort_fanout
    (store : List Notification) (broker : Option (List ChannelConn))
    (author_id article_id fresh_id now : Nat) (article_title article_slug : String) :
    (notify_writer_of_publication store broker author_id article_id fresh_id now
        article_title article_slug).1
      = store ++ [created_publication_row author_id article_id fresh_id now article_title]
    ∧ (created_publication_row author_id article_id fresh_id now article_title).is_read
        = false
    ∧ (created_publication_row author_id article_id fresh_id now article_title).read_at
        = none
    ∧ (broker = none →
        (notify_writer_of_publication store broker author_id article_id fresh_id now
          article_title article_slug).2 = [])
    ∧ (∀ conns, broker = some conns →
        (∀ c ∈ conns, c.groups.contains (publisher_topic author_id) = false) →
        (notify_writer_of_publication store broker author_id article_id fresh_id now
          article_title article_slug).2 = []) := by
  refine ⟨rfl, rfl, rfl, ?_, ?_⟩
  · intro h
    subst h
    rfl
  · intro conns h hc
    subst h
    exact group_send_enhanced_eq_nil conns _ _ hc

/-- Witness for claim C6: publishing for author 7 with a channel layer
holding no connections persists the row and sends no frame. -/
theorem publish_persists_witness :
    (notify_writer_of_publication [] (some []) 7 1 1 0 "X" "x").1
      = [] ++ [created_publication_row 7 1 1 0 "X"]
    ∧ (notify_writer_of_publication [] (some []) 7 1 1 0 "X" "x").2 = [] := by
  have h := publish_persists_row_before_best_effort_fanout [] (some []) 7 1 1 0 "X" "x"
  exact ⟨h.1, h.2.2.2.2 [] rfl (fun c hc => absurd hc (List.not_mem_nil c))⟩

theorem find?_map_eq {α : Type} (p : α → Bool) (f : α → α) (l : List α) (n n2 : α)
    (hfind : l.find? p = some n) (hpn2 : p n2 = true)
    (hB : ∀ m, p m = true → f m = n2)
    (hC : ∀ m, p (f m) = true → f m = n2) :
    (l.map f).find? p = some n2 := by
  induction l with
  | nil => simp at hfind
  | cons m ms ih =>
    by_cases hpm : p (f m) = true
    · rw [List.map_cons, List.find?_cons_of_pos _ hpm, hC m hpm]
    · have hmfalse : ¬ (p m = true) := fun hm =>
        hpm (by rw [hB m hm]; exact hpn2)
      rw [List.find?_cons_of_neg _ hmfalse] at hfind
      rw [List.map_cons, List.find?_cons_of_neg _ hpm]
      exact ih hfind

/-- Claim C7: `mark_as_read` through the `MarkNotificationAsRead` mutation
is idempotent — when the requester owns a matching notification, running
the mutation a second time returns the very same store and the very same
successful result as the first run, whose row has `is_read = true`. -/
theorem markNotificationAsRead_idempotent
    (store : List Notification) (uid nid t1 t2 : Nat) (n : Notification)
    (hfind : store.find? (fun m => m.id == nid && m.recipient_id == uid) = some n) :
    markNotificationAsRead (markNotificationAsRead store (some uid) nid t1).1
        (some uid) nid t2
      = markNotificationAsRead store (some uid) nid t1
    ∧ (markNotificationAsRead store (some uid) nid t1).2
        = MutationResult.ok (n.mark_as_read t1)
    ∧ (n.mark_as_read t1).is_read = true := by
  have hpn : (n.id == nid && n.recipient_id == uid) = true := by
    have h := List.find?_some hfind
    simpa using h
  have hn2id : (n.mark_as_read t1).id = n.id := mark_as_read_id n t1
  have hn2rec : (n.mark_as_read t1).recipient_id = n.recipient_id :=
    mark_as_read_recipient n t1
  have hn2read : (n.mark_as_read t1).is_read = true := mark_as_read_is_read n t1
  have hpn2 : ((n.mark_as_read t1).id == nid && (n.mark_as_read t1).recipient_id == uid)
      = true := by
    rw [hn2id, hn2rec]
    exact hpn
  have hB : ∀ m : Notification, (m.id == nid && m.recipient_id == uid) = true →
      (if m.id == n.id then n.mark_as_read t1 else m) = n.mark_as_read t1 := by
    intro m hm
    simp only [Bool.and_eq_true, beq_iff_eq] at hm hpn
    simp [hm.1.trans hpn.1.symm]
  have hC : ∀ m : Notification,
      ((if m.id == n.id then n.mark_as_read t1 else m).id == nid
        && (if m.id == n.id then n.mark_as_read t1 else m).recipient_id == uid) = true →
      (if m.id == n.id then n.mark_as_read t1 else m) = n.mark_as_read t1 := by
    intro m hfm
    by_cases hmid : m.id = n.id
    · simp [hmid]
    · have hfm' : (if m.id == n.id then n.mark_as_read t1 else m) = m := by
        simp [hmid]
      rw [hfm'] at hfm
      exact hB m hfm
  have e1 : markNotificationAsRead store (some uid) nid t1
      = (store.map (fun m => if m.id == n.id then n.mark_as_read t1 else m),
         MutationResult.ok (n.mark_as_read t1)) := by
    simp only [markNotificationAsRead, hfind]
  have e2 : (store.map (fun m => if m.id == n.id then n.mark_as_read t1 else m)).find?
        (fun m => m.id == nid && m.recipient_id == uid) = some (n.mark_as_read t1) :=
    find?_map_eq (fun m => m.id == nid && m.recipient_id == uid)
      (fun m => if m.id == n.id then n.mark_as_read t1 else m) store n
      (n.mark_as_read t1) hfind hpn2 hB hC
  have hmark2 : (n.mark_as_read t1).mark_as_read t2 = n.mark_as_read t1 :=
    mark_as_read_of_read (n.mark_as_read t1) t2 hn2read
  have e3 : markNotificationAsRead
        (store.map (fun m => if m.id == n.id then n.mark_as_read t1 else m))
        (some uid) nid t2
      = ((store.map (fun m => if m.id == n.id then n.mark_as_read t1 else m)).map
          (fun m => if m.id == (n.mark_as_read t1).id then n.mark_as_read t1 else m),
         MutationResult.ok (n.mark_as_read t1)) := by
    simp only [markNotificationAsRead, e2, hmark2]
  have e4 : (store.map (fun m => if m.id == n.id then n.mark_as_read t1 else m)).map
        (fun m => if m.id == (n.mark_as_read t1).id then n.mark_as_read t1 else m)
      = store.map (fun m => if m.id == n.id then n.mark_as_read t1 else m) := by
    rw [List.map_map]
    apply List.map_congr_left
    intro m _
    show (fun m => if m.id == (n.mark_as_read t1).id then n.mark_as_read t1 else m)
        (if m.id == n.id then n.mark_as_read t1 else m)
      = (if m.id == n.id then n.mark_as_read t1 else m)
    by_cases hmid : m.id = n.id
    · simp [hmid, hn2id]
    · have hfm' : (if m.id == n.id then n.mark_as_read t1 else m) = m := by
        simp [hmid]
      rw [hfm']
      have : ¬ (m.id = (n.mark_as_read t1).id) := by
        rw [hn2id]
        exact hmid
      simp [this]
  refine ⟨?_, ?_, hn2read⟩
  · rw [e1]
    show markNotificationAsRead
        (store.map (fun m => if m.id == n.id then n.mark_as_read t1 else m))
        (some uid) nid t2 = _
    rw [e3, e4]
  · rw [e1]

/-- Witness for claim C7 at a concrete one-row store owned by user 7. -/
theorem markNotificationAsRead_idempotent_witness :
    markNotificationAsRead (markNotificationAsRead [sampleRow] (some 7) 1 3).1
        (some 7) 1 9
      = markNotificationAsRead [sampleRow] (some 7) 1 3
    ∧ (markNotificationAsRead [sampleRow] (some 7) 1 3).2
        = MutationResult.ok (sampleRow.mark_as_read 3)
    ∧ (sampleRow.mark_as_read 3).is_read = true :=
  markNotificationAsRead_idempotent [sampleRow] 7 1 3 9 sampleRow (by decide)

theorem find?_not_mine (store : List Notification) (uid nid : Nat)
    (h : ∀ n ∈ store, n.id = nid → n.recipient_id ≠ uid) :
    store.find? (fun m => m.id == nid && m.recipient_id == uid) = none := by
  apply List.find?_eq_none.mpr
  intro x hx hcontra
  simp only [Bool.and_eq_true, beq_iff_eq] at hcontra
  exact h x hx hcontra.1 hcontra.2

/-- Claim C8: the `MarkNotificationAsRead` mutation run by an authenticated
user who is not the recipient of the targeted row fails with
`"Notification not found"` and returns the store with every row unchanged. -/
theorem mark_as_read_wrong_recipient_fails
    (store : List Notification) (uid nid t : Nat)
    (h : ∀ n ∈ store, n.id = nid → n.recipient_id ≠ uid) :
    markNotificationAsRead store (some uid) nid t
      = (store, MutationResult.err ["Notification not found"]) := by
  have hf := find?_not_mine store uid nid h
  simp only [markNotificationAsRead, hf]

/-- Witness for claim C8: user 7 tries to mark user 8's notification. -/
theorem mark_as_read_wrong_recipient_fails_witness :
    markNotificationAsRead [sampleRowOther] (some 7) 1 5
      = ([sampleRowOther], MutationResult.err ["Notification not found"]) :=
  mark_as_read_wrong_recipient_fails [sampleRowOther] 7 1 5 (by decide)

theorem readInv_mark (n : Notification) (t : Nat) (h : readInv n) :
    readInv (n.mark_as_read t) := by
  unfold Notification.mark_as_read
  split
  · exact h
  · simp [readInv]

theorem readInv_created (a b c d : Nat) (ti : String) :
    readInv (created_publication_row a b c d ti) := rfl

/-- Claim C9: `read_at` is set exactly when `is_read` is true, across every
operation of the embedding that creates or mutates a row — row creation by
the publisher, `Notification.mark_as_read`, the bulk
`mark_notifications_as_read`, and the `MarkNotificationAsRead` mutation
all preserve the invariant, and freshly created rows satisfy it. -/
theorem read_at_set_iff_read :
    (∀ (n : Notification) (t : Nat), readInv n → readInv (n.mark_as_read t))
    ∧ (∀ a b c d : Nat, ∀ ti : String, readInv (created_publication_row a b c d ti))
    ∧ (∀ store broker, ∀ a b c d : Nat, ∀ ti sl : String,
        (∀ n ∈ store, readInv n) →
        ∀ n ∈ (notify_writer_of_publication store broker a b c d ti sl).1, readInv n)
    ∧ (∀ store uid ids now, (∀ n ∈ store, readInv n) →
        ∀ n ∈ (mark_notifications_as_read store uid ids now).1, readInv n)
    ∧ (∀ store req nid now, (∀ n ∈ store, readInv n) →
        ∀ n ∈ (markNotificationAsRead store req nid now).1, readInv n) := by
  refine ⟨readInv_mark, readInv_created, ?_, ?_, ?_⟩
  · intro store broker a b c d ti sl hstore n hn
    have he : (notify_writer_of_publication store broker a b c d ti sl).1
        = store ++ [created_publication_row a b c d ti] := rfl
    rw [he] at hn
    rcases List.mem_append.mp hn with hmem | hmem
    · exact hstore n hmem
    · have : n = created_publication_row a b c d ti := by simpa using hmem
      rw [this]
      exact readInv_created a b c d ti
  · intro store uid ids now hstore n hn
    simp only [mark_notifications_as_read] at hn
    rcases List.mem_map.mp hn with ⟨m, hm, rfl⟩
    split
    · simp [readInv]
    · exact hstore m hm
  · intro store req nid now hstore n hn
    cases req with
    | none =>
      simp only [markNotificationAsRead] at hn
      exact hstore n hn
    | some uid =>
      cases hfind : store.find? (fun m => m.id == nid && m.recipient_id == uid) with
      | none =>
        simp only [markNotificationAsRead, hfind] at hn
        exact hstore n hn
      | some m0 =>
        simp only [markNotificationAsRead, hfind] at hn
        rcases List.mem_map.mp hn with ⟨m, hm, rfl⟩
        split
        · exact readInv_mark m0 now (hstore m0 (List.mem_of_find?_eq_some hfind))
        · exact hstore m hm

/-- Witness for claim C9 at concrete rows. -/
theorem read_at_set_iff_read_witness :
    readInv (sampleRow.mark_as_read 3)
    ∧ readInv (created_publication_row 7 1 1 0 "X") := by
  have h := read_at_set_iff_read
  exact ⟨h.1 sampleRow 3 rfl, h.2.1 7 1 1 0 "X"⟩

/-- Claim C10: an authenticated requester gets the identical failure
result — `success=false`, `errors=["Notification not found"]` — both when
the targeted notification id does not exist at all and when it exists but
belongs to a different recipient, so the two cases are indistinguishable
from the mutation response. -/
theorem mark_as_read_not_found_indistinguishable
    (store1 store2 : List Notification) (uid nid1 nid2 t1 t2 : Nat)
    (h1 : ∀ n ∈ store1, n.id ≠ nid1)
    (h2 : ∀ n ∈ store2, n.id = nid2 → n.recipient_id ≠ uid) :
    (markNotificationAsRead store1 (some uid) nid1 t1).2
      = MutationResult.err ["Notification not found"]
    ∧ (markNotificationAsRead store2 (some uid) nid2 t2).2
      = (markNotificationAsRead store1 (some uid) nid1 t1).2 := by
  have hf1 := find?_not_mine store1 uid nid1 (fun n hn hid => absurd hid (h1 n hn))
  have hf2 := find?_not_mine store2 uid nid2 h2
  constructor
  · simp only [markNotificationAsRead, hf1]
  · simp only [markNotificationAsRead, hf1, hf2]

/-- Witness for claim C10: an empty store with a missing id versus a store
holding user 8's notification queried by user 7. -/
theorem mark_as_read_not_found_indistinguishable_witness :
    (markNotificationAsRead [] (some 7) 5 1).2
      = MutationResult.err ["Notification not found"]
    ∧ (markNotificationAsRead [sampleRowOther] (some 7) 1 2).2
      = (markNotificationAsRead [] (some 7) 5 1).2 :=
  mark_as_read_not_found_indistinguishable [] [sampleRowOther] 7 5 1 1 2
    (by decide) (by decide)
